import Mathlib

/-!
# OsmAnd-core: weather layer/zoom mapper, request value objects, vector map symbol primitives

A shallow embedding of `src/Map/WeatherTileResourceProvider.cpp` and
`src/Map/VectorMapSymbol.cpp`, followed by the properties proved about it.

Conventions of the embedding:

* C++ `int` values are `Int`; every quantity that occurs in the zoom mapper is far
  from the 32-bit limits, so no wrap-around is involved there.  `unsigned int`
  arithmetic that can wrap is written with an explicit `% 2 ^ 32`.
* The `std::shared_ptr` to a cancellation token is the address of the token (`none`
  for `nullptr`); copying the pointer copies the address.  A pointer to a buffer that
  the code fills in is embedded as the buffer's contents.
* Code with undefined behaviour on some inputs (out-of-bounds element access) returns
  `Option`, with `none` for those inputs.
* `float`/`double` values are elements of abstract types with uninterpreted
  operations; the properties proved do not depend on any fact of floating-point
  arithmetic.
-/

namespace OsmAnd

/-! ## Common types -/

/-- Modelled from the spec: the enumeration `ZoomLevel` is declared in a header that is
not part of the sources at hand.  It is an unscoped enumeration over a 32-bit integer,
`ZoomLevelN` has the numeric value `N` and `InvalidZoomLevel` is `-1`; in comparisons
with `int` a `ZoomLevel` is promoted to its numeric value, so it is embedded as that
value. -/
abbrev ZoomLevel := Int

/-- Modelled from the spec: enumerator `ZoomLevel4` of `ZoomLevel` (zoom 4, the raw-data
zoom of the coarse layer). -/
def ZoomLevel4 : ZoomLevel := 4

/-- Modelled from the spec: enumerator `ZoomLevel7` of `ZoomLevel` (zoom 7, the raw-data
zoom of the fine layer). -/
def ZoomLevel7 : ZoomLevel := 7

/-- Modelled from the spec: enumerator `InvalidZoomLevel` of `ZoomLevel`. -/
def InvalidZoomLevel : ZoomLevel := -1

/-- The two raw-data layers (`Low` is the coarse layer, `High` the fine layer) and the
value for "no layer".  The enumeration is declared in the provider's header; the
enumerators are those the source file uses. -/
inductive WeatherLayer where
  | Undefined
  | Low
  | High
  deriving DecidableEq, Repr

namespace WeatherTileResourceProvider

/-! ## Weather layer/zoom mapper (`WeatherTileResourceProvider.cpp`, lines 80-134) -/

/-- `WeatherTileResourceProvider::getGeoTileZoom()`. -/
def getGeoTileZoom : ZoomLevel := ZoomLevel4

/-- `WeatherTileResourceProvider::getTileZoom(layer)`: a `switch` with a `default`
branch. -/
def getTileZoom (layer : WeatherLayer) : ZoomLevel :=
  match layer with
  | WeatherLayer.Low => ZoomLevel4
  | WeatherLayer.High => ZoomLevel7
  | _ => ZoomLevel4

/-- `WeatherTileResourceProvider::getMaxMissingDataZoomShift(layer)`: the over-zoom
tolerance of a layer. -/
def getMaxMissingDataZoomShift (layer : WeatherLayer) : Int :=
  if layer = WeatherLayer.Low then 2
  else if layer = WeatherLayer.High then 5
  else 0

/-- `WeatherTileResourceProvider::getMaxMissingDataUnderZoomShift(layer)`: the
under-zoom tolerance of a layer. -/
def getMaxMissingDataUnderZoomShift (layer : WeatherLayer) : Int :=
  if layer = WeatherLayer.Low then 2
  else if layer = WeatherLayer.High then 0
  else 0

/-- `WeatherTileResourceProvider::getWeatherLayerByZoom(zoom)`: the coarse layer's
window is tested first, then the fine layer's. -/
def getWeatherLayerByZoom (zoom : ZoomLevel) : WeatherLayer :=
  let lowZoom : Int := getTileZoom WeatherLayer.Low
  let lowOverZoom : Int := getMaxMissingDataZoomShift WeatherLayer.Low
  let lowUnderZoom : Int := getMaxMissingDataUnderZoomShift WeatherLayer.Low
  if zoom ≥ lowZoom - lowUnderZoom ∧ zoom ≤ lowZoom + lowOverZoom then
    WeatherLayer.Low
  else
    let highZoom : Int := getTileZoom WeatherLayer.High
    let highOverZoom : Int := getMaxMissingDataZoomShift WeatherLayer.High
    let highUnderZoom : Int := getMaxMissingDataUnderZoomShift WeatherLayer.High
    if zoom ≥ highZoom - highUnderZoom ∧ zoom ≤ highZoom + highOverZoom then
      WeatherLayer.High
    else
      WeatherLayer.Undefined

/-- The zoom window `[getTileZoom L - under L, getTileZoom L + over L]` of a layer, as
tested by `getWeatherLayerByZoom`. -/
def inZoomWindow (layer : WeatherLayer) (zoom : ZoomLevel) : Prop :=
  getTileZoom layer - getMaxMissingDataUnderZoomShift layer ≤ zoom ∧
    zoom ≤ getTileZoom layer + getMaxMissingDataZoomShift layer

instance (layer : WeatherLayer) (zoom : ZoomLevel) : Decidable (inZoomWindow layer zoom) := by
  unfold inZoomWindow
  exact inferInstance

/-- The variant of `getWeatherLayerByZoom` with the opposite priority order: the fine
layer's window is tested before the coarse layer's.  It is not in the source; it is the
comparison function for the statement that the priority order never decides the
result. -/
def getWeatherLayerByZoomFineFirst (zoom : ZoomLevel) : WeatherLayer :=
  let highZoom : Int := getTileZoom WeatherLayer.High
  let highOverZoom : Int := getMaxMissingDataZoomShift WeatherLayer.High
  let highUnderZoom : Int := getMaxMissingDataUnderZoomShift WeatherLayer.High
  if zoom ≥ highZoom - highUnderZoom ∧ zoom ≤ highZoom + highOverZoom then
    WeatherLayer.High
  else
    let lowZoom : Int := getTileZoom WeatherLayer.Low
    let lowOverZoom : Int := getMaxMissingDataZoomShift WeatherLayer.Low
    let lowUnderZoom : Int := getMaxMissingDataUnderZoomShift WeatherLayer.Low
    if zoom ≥ lowZoom - lowUnderZoom ∧ zoom ≤ lowZoom + lowOverZoom then
      WeatherLayer.Low
    else
      WeatherLayer.Undefined

/-- The distance between a requested zoom and the raw-data zoom of a layer. -/
def zoomDistance (layer : WeatherLayer) (zoom : ZoomLevel) : Nat :=
  Int.natAbs (zoom - getTileZoom layer)

/-- Layer `layer` is a nearest available raw-data layer for `zoom`: its raw-data zoom
is at least as close to `zoom` as that of each of the two layers `Low` and `High`. -/
def isNearestLayer (layer : WeatherLayer) (zoom : ZoomLevel) : Prop :=
  zoomDistance layer zoom ≤ zoomDistance WeatherLayer.Low zoom ∧
    zoomDistance layer zoom ≤ zoomDistance WeatherLayer.High zoom

instance (layer : WeatherLayer) (zoom : ZoomLevel) : Decidable (isNearestLayer layer zoom) := by
  unfold isNearestLayer
  exact inferInstance

/-- The zooms strictly above a layer's own raw-data zoom that `getWeatherLayerByZoom`
maps to that layer (the zooms served by upsampling the layer). -/
def overZoomSet (layer : WeatherLayer) : Set Int :=
  {z | getTileZoom layer < z ∧ getWeatherLayerByZoom z = layer}

end WeatherTileResourceProvider

/-! ## Request value objects (`WeatherTileResourceProvider.cpp`, lines 151-239)

The member lists are those assigned by the `copy` functions and the constructors of
the source file; the member types are declared in headers and are embedded by the
values they hold. -/

/-- A `std::shared_ptr<const IQueryController>`: the address of the cancellation token
it points to, `none` for a null pointer.  Two pointers denote the same token exactly
when they hold the same address. -/
abbrev QueryControllerPtr := Option Nat

/-- `PointI`: a point with 32-bit integer coordinates. -/
structure PointI where
  x : Int
  y : Int
  deriving DecidableEq, Repr

/-- `TileId`: the coordinates of a tile. -/
structure TileId where
  x : Int
  y : Int
  deriving DecidableEq, Repr

/-- `BandIndex`: the integer index of a weather band. -/
abbrev BandIndex := Int

/-- `WeatherType`: raster image or vector contours. -/
inductive WeatherType where
  | Raster
  | Contour
  deriving DecidableEq, Repr

/-- `LatLon`: a geographic point; `D` is the type of its floating-point coordinates. -/
structure LatLon (D : Type) where
  latitude : D
  longitude : D
  deriving DecidableEq, Repr

namespace WeatherTileResourceProvider

/-- `WeatherTileResourceProvider::ValueRequest`. -/
structure ValueRequest where
  point31 : PointI
  zoom : ZoomLevel
  band : BandIndex
  queryController : QueryControllerPtr
  deriving DecidableEq, Repr

/-- `ValueRequest::copy(dst, src)`.  Both objects are passed by reference; the result is
the pair of their states after the call, `dst` first. -/
def ValueRequest.copy (dst src : ValueRequest) : ValueRequest × ValueRequest :=
  let dst := { dst with point31 := src.point31 }
  let dst := { dst with zoom := src.zoom }
  let dst := { dst with band := src.band }
  let dst := { dst with queryController := src.queryController }
  (dst, src)

/-- The copy constructor `ValueRequest(const ValueRequest& that)`.  It has no member
initialisers, so before its body runs the members hold whatever default initialisation
leaves there: `storage` gives those (indeterminate) contents, with the pointer member
null.  The body is `copy(*this, that)`.  The result is the constructed object and `that`
after the call. -/
def ValueRequest.copyConstruct (storage that : ValueRequest) : ValueRequest × ValueRequest :=
  ValueRequest.copy { storage with queryController := none } that

/-- `ValueRequest::clone()`: `new ValueRequest(*this)`.  The result is the object managed
by the returned pointer, and the receiver after the call. -/
def ValueRequest.clone (storage self : ValueRequest) : ValueRequest × ValueRequest :=
  ValueRequest.copyConstruct storage self

/-- `WeatherTileResourceProvider::TileRequest`. -/
structure TileRequest where
  weatherType : WeatherType
  tileId : TileId
  zoom : ZoomLevel
  bands : List BandIndex
  queryController : QueryControllerPtr
  version : Int
  ignoreVersion : Bool
  deriving DecidableEq, Repr

/-- `TileRequest::copy(dst, src)`; the result is the pair of states after the call. -/
def TileRequest.copy (dst src : TileRequest) : TileRequest × TileRequest :=
  let dst := { dst with weatherType := src.weatherType }
  let dst := { dst with tileId := src.tileId }
  let dst := { dst with zoom := src.zoom }
  let dst := { dst with bands := src.bands }
  let dst := { dst with queryController := src.queryController }
  let dst := { dst with version := src.version }
  let dst := { dst with ignoreVersion := src.ignoreVersion }
  (dst, src)

/-- The copy constructor `TileRequest(const TileRequest& that)`: default-initialised
members (`storage`, with an empty band list and a null pointer), then
`copy(*this, that)`. -/
def TileRequest.copyConstruct (storage that : TileRequest) : TileRequest × TileRequest :=
  TileRequest.copy { storage with bands := [], queryController := none } that

/-- `TileRequest::clone()`: `new TileRequest(*this)`. -/
def TileRequest.clone (storage self : TileRequest) : TileRequest × TileRequest :=
  TileRequest.copyConstruct storage self

/-- `WeatherTileResourceProvider::DownloadGeoTileRequest`. -/
structure DownloadGeoTileRequest (D : Type) where
  topLeft : LatLon D
  bottomRight : LatLon D
  forceDownload : Bool
  queryController : QueryControllerPtr
  deriving DecidableEq, Repr

/-- `DownloadGeoTileRequest::copy(dst, src)`; the result is the pair of states after the
call. -/
def DownloadGeoTileRequest.copy {D : Type} (dst src : DownloadGeoTileRequest D) :
    DownloadGeoTileRequest D × DownloadGeoTileRequest D :=
  let dst := { dst with topLeft := src.topLeft }
  let dst := { dst with bottomRight := src.bottomRight }
  let dst := { dst with forceDownload := src.forceDownload }
  let dst := { dst with queryController := src.queryController }
  (dst, src)

/-- The copy constructor `DownloadGeoTileRequest(const DownloadGeoTileRequest& that)`:
default-initialised members (`storage`, with a null pointer), then
`copy(*this, that)`. -/
def DownloadGeoTileRequest.copyConstruct {D : Type} (storage that : DownloadGeoTileRequest D) :
    DownloadGeoTileRequest D × DownloadGeoTileRequest D :=
  DownloadGeoTileRequest.copy { storage with queryController := none } that

/-- `DownloadGeoTileRequest::clone()`: `new DownloadGeoTileRequest(*this)`. -/
def DownloadGeoTileRequest.clone {D : Type} (storage self : DownloadGeoTileRequest D) :
    DownloadGeoTileRequest D × DownloadGeoTileRequest D :=
  DownloadGeoTileRequest.copyConstruct storage self

end WeatherTileResourceProvider

/-! ## Closing the provider (`WeatherTileResourceProvider.cpp`, lines 15-26 and 146-149) -/

/-- Modelled from the spec: the private implementation class
`WeatherTileResourceProvider_P`, to which every operation of the provider forwards and
whose source is not available.  Of its state, the part the spec describes for closing:
whether the provider has been closed, and the identifiers of the outstanding requests
on the worker pool. -/
structure WeatherTileResourceProvider_P where
  closed : Bool
  outstanding : List Nat
  deriving DecidableEq, Repr

/-- Modelled from the spec: the constructor of `WeatherTileResourceProvider_P`; a new
provider is open and has no outstanding work. -/
def WeatherTileResourceProvider_P.construct : WeatherTileResourceProvider_P :=
  { closed := false, outstanding := [] }

/-- Modelled from the spec: `WeatherTileResourceProvider_P::closeProvider()`.  The spec:
"`closeProvider` cancels all outstanding work, drains the worker pool, and makes the
provider unusable for new requests thereafter", and "idempotent; second call is a no-op
returning false".  The result is the state after the call and the returned flag. -/
def WeatherTileResourceProvider_P.closeProvider (p : WeatherTileResourceProvider_P) :
    WeatherTileResourceProvider_P × Bool :=
  if p.closed then
    (p, false)
  else
    ({ p with outstanding := [], closed := true }, true)

/-- The provider object: the pointer `_p` to its private implementation (embedded as
the implementation's state) and the public flag `networkAccessAllowed`. -/
structure WeatherTileResourceProvider where
  _p : WeatherTileResourceProvider_P
  networkAccessAllowed : Bool
  deriving DecidableEq, Repr

namespace WeatherTileResourceProvider

/-- The constructor `WeatherTileResourceProvider(...)`: `_p` is a newly constructed
implementation object and `networkAccessAllowed` is `true`.  The constructor arguments
are only handed to the implementation's constructor. -/
def construct : WeatherTileResourceProvider :=
  { _p := WeatherTileResourceProvider_P.construct, networkAccessAllowed := true }

/-- `WeatherTileResourceProvider::closeProvider()`: `return _p->closeProvider();`.  The
result is the provider after the call and the returned flag. -/
def closeProvider (self : WeatherTileResourceProvider) : WeatherTileResourceProvider × Bool :=
  let r := self._p.closeProvider
  ({ self with _p := r.1 }, r.2)

end WeatherTileResourceProvider

/-! ## Vector map symbol primitives (`VectorMapSymbol.cpp`) -/

/-- The floating-point operations used by the primitive generators, over a type `F` of
`float` values and a type `D` of `double` values.  Nothing is assumed about them. -/
structure FloatOps (F D : Type) where
  /-- The literal `0.0f`. -/
  zero : F
  /-- The constant `NAN`. -/
  nan : F
  /-- The constant `_absentElevation` (`-13e9f`). -/
  absentElevation : F
  /-- The constant expression `2.0*M_PI`. -/
  twoPi : D
  /-- Conversion of an `unsigned int` to `double`. -/
  ofUInt : Nat → D
  /-- Division of `double` values. -/
  div : D → D → D
  /-- Multiplication of `double` values. -/
  mul : D → D → D
  /-- The function `qCos`. -/
  qCos : D → D
  /-- The function `qSin`. -/
  qSin : D → D
  /-- Promotion of a `float` to `double`. -/
  toDouble : F → D
  /-- Conversion of a `double` to `float`, on assignment to a `float` member. -/
  toFloat : D → F

/-- `FColorARGB`: a colour with floating-point components. -/
structure FColorARGB (F : Type) where
  a : F
  r : F
  g : F
  b : F
  deriving DecidableEq, Repr

/-- `Model3D::Vertex`: position and normal (arrays of three floats), the index of the
vertex's material (`-1` for none) and the vertex's own colour. -/
structure Model3D.Vertex (F : Type) where
  position : Fin 3 → F
  normal : Fin 3 → F
  materialIndex : Int
  color : FColorARGB F

/-- `Model3D::Material`: a named colour. -/
structure Model3D.Material (F : Type) where
  name : String
  color : FColorARGB F

/-- `Model3D`, as far as `generateModel3DPrimitive` reads it: the vertex container and
the material container.  Their `size()` is the number of elements; the containers are Qt
containers whose size is an `int`, so it converts to the vertex count without loss. -/
structure Model3D (F : Type) where
  vertices : List (Model3D.Vertex F)
  materials : List (Model3D.Material F)

/-- `QHash<QString, FColorARGB>` as an association list; `constFind` is the lookup of
the first entry with the given key. -/
abbrev MaterialColors (F : Type) := List (String × FColorARGB F)

namespace VectorMapSymbol

/-- `VectorMapSymbol::PrimitiveType`, with the enumerators the source file uses. -/
inductive PrimitiveType where
  | Invalid
  | TriangleFan
  | Triangles
  | LineLoop
  deriving DecidableEq, Repr

/-- `VectorMapSymbol::Vertex`: `positionXYZD` (array of four floats) and `color`. -/
structure Vertex (F : Type) where
  positionXYZD : Fin 4 → F
  color : FColorARGB F

/-- `VectorMapSymbol::VertexWithNormals`: `positionXYZ`, `normalXYZ` (arrays of three
floats) and `color`. -/
structure VertexWithNormals (F : Type) where
  positionXYZ : Fin 3 → F
  normalXYZ : Fin 3 → F
  color : FColorARGB F

/-- `VectorMapSymbol::VerticesAndIndices`.  A pointer to an array owned by the object is
embedded as the array's contents (`none` for `nullptr`); `partSizes`, which the
destructor does not delete, is embedded as an address. -/
structure VerticesAndIndices (F : Type) where
  position31 : Option PointI
  vertices : Option (List (Vertex F))
  verticesWithNormals : Option (List (VertexWithNormals F))
  verticesCount : Nat
  indices : Option (List Nat)
  indicesCount : Nat
  partSizes : Option Nat
  zoomLevel : ZoomLevel
  isDenseObject : Bool

/-- The constructor `VerticesAndIndices::VerticesAndIndices()`. -/
def VerticesAndIndices.construct {F : Type} : VerticesAndIndices F :=
  { position31 := none
    vertices := none
    verticesWithNormals := none
    verticesCount := 0
    indices := none
    indicesCount := 0
    partSizes := none
    zoomLevel := InvalidZoomLevel
    isDenseObject := false }

end VectorMapSymbol

/-- `VectorMapSymbol`, as far as the primitive generators read or write it: the shared
pointer `_verticesAndIndices` (embedded as the object it manages, `none` for a null
pointer) and `primitiveType`. -/
structure VectorMapSymbol (F : Type) where
  _verticesAndIndices : Option (VectorMapSymbol.VerticesAndIndices F)
  primitiveType : VectorMapSymbol.PrimitiveType

namespace VectorMapSymbol

/-- `VectorMapSymbol::setVerticesAndIndices(verticesAndIndices)`. -/
def setVerticesAndIndices {F : Type} (self : VectorMapSymbol F)
    (verticesAndIndices : VerticesAndIndices F) : VectorMapSymbol F :=
  { self with _verticesAndIndices := some verticesAndIndices }

/-- `VectorMapSymbol::releaseVerticesAndIndices()`: `_verticesAndIndices.reset()`. -/
def releaseVerticesAndIndices {F : Type} (self : VectorMapSymbol F) : VectorMapSymbol F :=
  { self with _verticesAndIndices := none }

/-- The array made by `new T[count]`: `count` elements; element `i` holds `storage i`,
the (indeterminate) contents of the memory obtained. -/
def newArray {T : Type} (storage : Nat → T) (count : Nat) : List T :=
  (List.range count).map storage

/-- The assignment `p[index] = value` through a pointer into `array`; outside the
bounds of the array the behaviour is undefined (`none`). -/
def store {T : Type} (array : List T) (index : Nat) (value : T) : Option (List T) :=
  if index < array.length then some (array.set index value) else none

/-- The vertex written by one pass of the loop of `generateCirclePrimitive` (lines
124-129), for loop counter `pointIdx`. -/
def circleVertex {F D : Type} (ops : FloatOps F D) (color : FColorARGB F) (radius : F)
    (step : D) (pointIdx : Nat) : Vertex F :=
  let angle := ops.mul step (ops.ofUInt pointIdx)
  { positionXYZD := ![ops.toFloat (ops.mul (ops.toDouble radius) (ops.qCos angle)),
                      ops.absentElevation,
                      ops.toFloat (ops.mul (ops.toDouble radius) (ops.qSin angle)),
                      ops.nan]
    color := color }

/-- The loop `for (pointIdx = 0u; pointIdx < pointsCount; pointIdx++)` of
`generateCirclePrimitive` (lines 122-132), with `remaining` passes left to run: each
pass writes one vertex at `pVertex` and advances `pVertex`.  The result is the array and
`pVertex` after the loop. -/
def circleLoop {F D : Type} (ops : FloatOps F D) (color : FColorARGB F) (radius : F)
    (step : D) : (remaining pointIdx pVertex : Nat) → List (Vertex F) →
    Option (List (Vertex F) × Nat)
  | 0, _, pVertex, vertices => some (vertices, pVertex)
  | remaining + 1, pointIdx, pVertex, vertices =>
    match store vertices pVertex (circleVertex ops color radius step pointIdx) with
    | none => none
    | some vertices => circleLoop ops color radius step remaining (pointIdx + 1) (pVertex + 1) vertices

/-- `VectorMapSymbol::generateCirclePrimitive(mapSymbol, color, pointsCount, radius)`.
`pointsCount` is an `unsigned int`; `storage` is the content of the memory the vertex
array is allocated in.  The result is `none` when the run has undefined behaviour;
otherwise it is the symbol after the call together with the list of the `unsigned int`
values that were used as divisors of a floating-point division during the run. -/
def generateCirclePrimitive {F D : Type} (ops : FloatOps F D) (storage : Nat → Vertex F)
    (mapSymbol : VectorMapSymbol F) (color : FColorARGB F) (pointsCount : Nat) (radius : F) :
    Option (VectorMapSymbol F × List Nat) :=
  if pointsCount = 0 then
    some (mapSymbol.releaseVerticesAndIndices, [])
  else
    let mapSymbol := { mapSymbol with primitiveType := PrimitiveType.TriangleFan }
    let verticesAndIndices : VerticesAndIndices F := VerticesAndIndices.construct
    let verticesAndIndices := { verticesAndIndices with indices := none }
    let verticesAndIndices := { verticesAndIndices with indicesCount := 0 }
    let verticesAndIndices :=
      { verticesAndIndices with verticesCount := (pointsCount + 2) % 2 ^ 32 }
    let vertices := newArray storage verticesAndIndices.verticesCount
    let pVertex := 0
    let center : Vertex F :=
      { positionXYZD := ![ops.zero, ops.absentElevation, ops.zero, ops.nan], color := color }
    match store vertices pVertex center with
    | none => none
    | some vertices =>
      let pVertex := pVertex + 1
      let step := ops.div ops.twoPi (ops.ofUInt pointsCount)
      match circleLoop ops color radius step pointsCount 0 pVertex vertices with
      | none => none
      | some (vertices, pVertex) =>
        match vertices[1]? with
        | none => none
        | some first =>
          let last : Vertex F :=
            { positionXYZD := ![first.positionXYZD 0, ops.absentElevation,
                                first.positionXYZD 2, ops.nan]
              color := color }
          match store vertices pVertex last with
          | none => none
          | some vertices =>
            let verticesAndIndices := { verticesAndIndices with vertices := some vertices }
            some (mapSymbol.setVerticesAndIndices verticesAndIndices, [pointsCount])

/-- The colour chosen for one vertex by `generateModel3DPrimitive` (lines 213-220);
`none` when `materialIndex` is not `-1` and is not an index into `materials`. -/
def vertexColor {F : Type} (model3D : Model3D F) (customMaterialColors : MaterialColors F)
    (modelVertex : Model3D.Vertex F) : Option (FColorARGB F) :=
  if modelVertex.materialIndex = -1 then
    some modelVertex.color
  else if 0 ≤ modelVertex.materialIndex then
    match model3D.materials[modelVertex.materialIndex.toNat]? with
    | none => none
    | some material =>
      match customMaterialColors.lookup material.name with
      | none => some material.color
      | some customColor => some customColor
  else
    none

/-- The loop `for (vertexIndex = 0u; vertexIndex < verticesCount; vertexIndex++)` of
`generateModel3DPrimitive` (lines 201-223), with `remaining` passes left to run: each
pass reads `model3D->vertices[vertexIndex]`, writes one vertex at `pVertex` and advances
`pVertex`. -/
def modelLoop {F : Type} (model3D : Model3D F) (customMaterialColors : MaterialColors F) :
    (remaining vertexIndex pVertex : Nat) → List (VertexWithNormals F) →
    Option (List (VertexWithNormals F))
  | 0, _, _, out => some out
  | remaining + 1, vertexIndex, pVertex, out =>
    match model3D.vertices[vertexIndex]? with
    | none => none
    | some modelVertex =>
      match vertexColor model3D customMaterialColors modelVertex with
      | none => none
      | some color =>
        let vertex : VertexWithNormals F :=
          { positionXYZ := ![modelVertex.position 0, modelVertex.position 1,
                             modelVertex.position 2]
            normalXYZ := ![modelVertex.normal 0, modelVertex.normal 1, modelVertex.normal 2]
            color := color }
        match store out pVertex vertex with
        | none => none
        | some out =>
          modelLoop model3D customMaterialColors remaining (vertexIndex + 1) (pVertex + 1) out

/-- `VectorMapSymbol::generateModel3DPrimitive(mapSymbol, model3D, customMaterialColors)`.
`storage` is the content of the memory the vertex array is allocated in.  The result is
`none` when the run has undefined behaviour, otherwise the symbol after the call. -/
def generateModel3DPrimitive {F : Type} (storage : Nat → VertexWithNormals F)
    (mapSymbol : VectorMapSymbol F) (model3D : Model3D F)
    (customMaterialColors : MaterialColors F) : Option (VectorMapSymbol F) :=
  let mapSymbol := { mapSymbol with primitiveType := PrimitiveType.Triangles }
  let verticesAndIndices : VerticesAndIndices F := VerticesAndIndices.construct
  let verticesAndIndices := { verticesAndIndices with indices := none }
  let verticesAndIndices := { verticesAndIndices with indicesCount := 0 }
  let verticesAndIndices :=
    { verticesAndIndices with verticesCount := model3D.vertices.length }
  let verticesWithNormals := newArray storage verticesAndIndices.verticesCount
  match modelLoop model3D customMaterialColors verticesAndIndices.verticesCount 0 0
      verticesWithNormals with
  | none => none
  | some verticesWithNormals =>
    let verticesAndIndices :=
      { verticesAndIndices with verticesWithNormals := some verticesWithNormals }
    let verticesAndIndices := { verticesAndIndices with isDenseObject := true }
    some (mapSymbol.setVerticesAndIndices verticesAndIndices)

/-- A sample interpretation of the floating-point operations over the integers, used to
run the generators on concrete inputs. -/
def sampleOps : FloatOps Int Int :=
  { zero := 0
    nan := -1
    absentElevation := -13000000000
    twoPi := 6
    ofUInt := fun n => (n : Int)
    div := fun x y => x / y
    mul := fun x y => x * y
    qCos := fun x => x
    qSin := fun x => x + 1
    toDouble := fun x => x
    toFloat := fun x => x }

/-- The result of `generateCirclePrimitive` for a non-zero `pointsCount`, as a property
of the symbol `result` after the call: the primitive type is `TriangleFan`; the symbol
holds a buffer without indices whose vertex array `vs` has `pointsCount + 2` elements;
vertex 0 has x = 0 and z = 0; every vertex has colour `color` and y = `absentElevation`;
the last vertex, at index `pointsCount + 1`, has the x and z of vertex 1. -/
def IsCircleFan {F D : Type} (ops : FloatOps F D) (color : FColorARGB F) (pointsCount : Nat)
    (result : VectorMapSymbol F) : Prop :=
  result.primitiveType = PrimitiveType.TriangleFan ∧
  ∃ (buffer : VerticesAndIndices F) (vs : List (Vertex F)),
    result._verticesAndIndices = some buffer ∧
    buffer.indices = none ∧
    buffer.indicesCount = 0 ∧
    buffer.verticesCount = pointsCount + 2 ∧
    buffer.vertices = some vs ∧
    vs.length = pointsCount + 2 ∧
    (∃ center, vs[0]? = some center ∧
      center.positionXYZD 0 = ops.zero ∧ center.positionXYZD 2 = ops.zero) ∧
    (∀ i, i < pointsCount + 2 →
      ∃ v, vs[i]? = some v ∧ v.color = color ∧ v.positionXYZD 1 = ops.absentElevation) ∧
    (∃ first last, vs[1]? = some first ∧ vs[pointsCount + 1]? = some last ∧
      last.positionXYZD 0 = first.positionXYZD 0 ∧
      last.positionXYZD 2 = first.positionXYZD 2)

/-- Every vertex of the model has `materialIndex = -1` or a `materialIndex` that is a
valid index into the model's materials. -/
def HasValidMaterialIndices {F : Type} (model3D : Model3D F) : Prop :=
  ∀ v ∈ model3D.vertices,
    v.materialIndex = -1 ∨ (0 ≤ v.materialIndex ∧ v.materialIndex < model3D.materials.length)

/-- The result of `generateModel3DPrimitive`, as a property of the symbol `result` after
the call: the primitive type is `Triangles`; the symbol holds a dense buffer without
indices whose array `vs` of vertices with normals has one element per model vertex, in
the same order; element `i` has the position and the normal of model vertex `i`, and its
colour is the model vertex's own colour when `materialIndex = -1`, and otherwise the
custom colour recorded under the material's name when there is one and the material's
colour when there is none. -/
def IsModelTriangles {F : Type} (model3D : Model3D F) (customMaterialColors : MaterialColors F)
    (result : VectorMapSymbol F) : Prop :=
  result.primitiveType = PrimitiveType.Triangles ∧
  ∃ (buffer : VerticesAndIndices F) (vs : List (VertexWithNormals F)),
    result._verticesAndIndices = some buffer ∧
    buffer.isDenseObject = true ∧
    buffer.indices = none ∧
    buffer.indicesCount = 0 ∧
    buffer.verticesCount = model3D.vertices.length ∧
    buffer.verticesWithNormals = some vs ∧
    vs.length = model3D.vertices.length ∧
    ∀ (i : Nat) (modelVertex : Model3D.Vertex F), model3D.vertices[i]? = some modelVertex →
      ∃ v : VertexWithNormals F, vs[i]? = some v ∧
        (∀ k, v.positionXYZ k = modelVertex.position k) ∧
        (∀ k, v.normalXYZ k = modelVertex.normal k) ∧
        (modelVertex.materialIndex = -1 → v.color = modelVertex.color) ∧
        (modelVertex.materialIndex ≠ -1 →
          ∃ material : Model3D.Material F, model3D.materials[modelVertex.materialIndex.toNat]? = some material ∧
            (∀ c, customMaterialColors.lookup material.name = some c → v.color = c) ∧
            (customMaterialColors.lookup material.name = none → v.color = material.color))

/-- A sample model: a vertex without material, a vertex of material 0 (`"glass"`) and a
vertex of material 1 (`"steel"`). -/
def sampleModel : Model3D Int :=
  { vertices :=
      [ { position := ![1, 2, 3], normal := ![0, 0, 1], materialIndex := -1,
          color := ⟨10, 10, 10, 10⟩ },
        { position := ![4, 5, 6], normal := ![0, 1, 0], materialIndex := 0,
          color := ⟨20, 20, 20, 20⟩ },
        { position := ![7, 8, 9], normal := ![1, 0, 0], materialIndex := 1,
          color := ⟨30, 30, 30, 30⟩ } ]
    materials :=
      [ { name := "glass", color := ⟨40, 40, 40, 40⟩ },
        { name := "steel", color := ⟨50, 50, 50, 50⟩ } ] }

/-- Sample custom colours: one for the material `"steel"`. -/
def sampleColors : MaterialColors Int := [("steel", ⟨60, 60, 60, 60⟩)]

end VectorMapSymbol

end OsmAnd

/-! ## Properties -/

namespace OsmAnd

namespace WeatherTileResourceProvider

/-- Closed form of `getWeatherLayerByZoom`, with the constants evaluated. -/
theorem getWeatherLayerByZoom_eq (z : Int) :
    getWeatherLayerByZoom z =
      if 2 ≤ z ∧ z ≤ 6 then WeatherLayer.Low
      else if 7 ≤ z ∧ z ≤ 12 then WeatherLayer.High
      else WeatherLayer.Undefined := by
  simp [getWeatherLayerByZoom, getTileZoom, getMaxMissingDataZoomShift,
    getMaxMissingDataUnderZoomShift, ZoomLevel4, ZoomLevel7]

/-- Closed form of the fine-first variant, with the constants evaluated. -/
theorem getWeatherLayerByZoomFineFirst_eq (z : Int) :
    getWeatherLayerByZoomFineFirst z =
      if 7 ≤ z ∧ z ≤ 12 then WeatherLayer.High
      else if 2 ≤ z ∧ z ≤ 6 then WeatherLayer.Low
      else WeatherLayer.Undefined := by
  simp [getWeatherLayerByZoomFineFirst, getTileZoom, getMaxMissingDataZoomShift,
    getMaxMissingDataUnderZoomShift, ZoomLevel4, ZoomLevel7]

/-- C1: for every integer zoom `z`, `getWeatherLayerByZoom z` is one of `Low`, `High`
and `Undefined`; it is `Low` exactly when `2 ≤ z ≤ 6`, `High` exactly when `7 ≤ z ≤ 12`,
and `Undefined` exactly when `z` is in neither range; zoom 2 gives `Low`, zoom 12 gives
`High`, zoom 13 gives `Undefined`. -/
theorem getWeatherLayerByZoom_spec (z : Int) :
    (getWeatherLayerByZoom z = WeatherLayer.Low ∨ getWeatherLayerByZoom z = WeatherLayer.High ∨
      getWeatherLayerByZoom z = WeatherLayer.Undefined) ∧
    (getWeatherLayerByZoom z = WeatherLayer.Low ↔ 2 ≤ z ∧ z ≤ 6) ∧
    (getWeatherLayerByZoom z = WeatherLayer.High ↔ 7 ≤ z ∧ z ≤ 12) ∧
    (getWeatherLayerByZoom z = WeatherLayer.Undefined ↔ ¬ (2 ≤ z ∧ z ≤ 12)) ∧
    getWeatherLayerByZoom 2 = WeatherLayer.Low ∧
    getWeatherLayerByZoom 12 = WeatherLayer.High ∧
    getWeatherLayerByZoom 13 = WeatherLayer.Undefined := by
  refine ⟨?_, ?_, ?_, ?_, by decide, by decide, by decide⟩
  · cases getWeatherLayerByZoom z
    · exact Or.inr (Or.inr rfl)
    · exact Or.inl rfl
    · exact Or.inr (Or.inl rfl)
  all_goals
    rw [getWeatherLayerByZoom_eq]
    split_ifs with h₁ h₂
    all_goals
      constructor
      all_goals
        intro h
        first
          | exact absurd h (by decide)
          | rfl
          | omega

/-- C2 (as stated, refuted): at zoom 6 the mapper returns the coarse layer `Low`, whose
raw-data zoom 4 is at distance 2, although the fine layer `High` (raw-data zoom 7) is at
distance 1; so the returned layer is not the nearest one. -/
theorem getWeatherLayerByZoom_six_not_nearest :
    getWeatherLayerByZoom 6 = WeatherLayer.Low ∧
    getWeatherLayerByZoom 6 ≠ WeatherLayer.Undefined ∧
    zoomDistance (getWeatherLayerByZoom 6) 6 = 2 ∧
    zoomDistance WeatherLayer.High 6 = 1 ∧
    ¬ isNearestLayer (getWeatherLayerByZoom 6) 6 := by
  decide

/-- C2 (amended): for every zoom `z` that `getWeatherLayerByZoom` maps to a layer other
than `Undefined`, the returned layer is a nearest raw-data layer if and only if
`z ≠ 6`; that is, it is nearest at every covered zoom except 6. -/
theorem getWeatherLayerByZoom_nearest_iff (z : Int)
    (h : getWeatherLayerByZoom z ≠ WeatherLayer.Undefined) :
    isNearestLayer (getWeatherLayerByZoom z) z ↔ z ≠ 6 := by
  rw [getWeatherLayerByZoom_eq] at h ⊢
  unfold isNearestLayer zoomDistance
  split_ifs at h ⊢ with h₁ h₂
  · simp only [getTileZoom, ZoomLevel4, ZoomLevel7]
    constructor
    · intro hn; omega
    · intro hn; omega
  · simp only [getTileZoom, ZoomLevel4, ZoomLevel7]
    constructor
    · intro hn; omega
    · intro hn; omega
  · exact absurd rfl h

/-- Witness for C2 (amended) at zoom 5: covered by `Low`, which is nearest there. -/
theorem getWeatherLayerByZoom_nearest_iff_witness :
    getWeatherLayerByZoom 5 ≠ WeatherLayer.Undefined ∧
    (isNearestLayer (getWeatherLayerByZoom 5) 5 ↔ (5 : Int) ≠ 6) :=
  ⟨by decide, getWeatherLayerByZoom_nearest_iff 5 (by decide)⟩

/-- C3: `getTileZoom Low = 4`, `getTileZoom High = 7`, and `getGeoTileZoom = 4`, the
zoom of the coarse layer. -/
theorem getTileZoom_spec :
    getTileZoom WeatherLayer.Low = 4 ∧
    getTileZoom WeatherLayer.High = 7 ∧
    getGeoTileZoom = 4 ∧
    getGeoTileZoom = getTileZoom WeatherLayer.Low := by
  decide

/-- C4: the shift tolerances are the fixed constants: for `Low` under = 2 and over = 2,
for `High` under = 0 and over = 5, and for `Undefined` both are 0. -/
theorem getMaxMissingDataShift_spec :
    getMaxMissingDataUnderZoomShift WeatherLayer.Low = 2 ∧
    getMaxMissingDataZoomShift WeatherLayer.Low = 2 ∧
    getMaxMissingDataUnderZoomShift WeatherLayer.High = 0 ∧
    getMaxMissingDataZoomShift WeatherLayer.High = 5 ∧
    getMaxMissingDataUnderZoomShift WeatherLayer.Undefined = 0 ∧
    getMaxMissingDataZoomShift WeatherLayer.Undefined = 0 := by
  decide

/-- The zooms above 4 mapped to `Low` are exactly 5 and 6. -/
theorem overZoomSet_Low : overZoomSet WeatherLayer.Low = Set.Icc 5 6 := by
  ext z
  simp only [overZoomSet, Set.mem_setOf_eq, Set.mem_Icc, getWeatherLayerByZoom_eq, getTileZoom,
    ZoomLevel4, ZoomLevel]
  split_ifs with h₁ h₂
  · constructor
    · rintro ⟨h, -⟩; omega
    · intro h; exact ⟨by omega, rfl⟩
  · constructor
    · intro h; exact absurd h.2 (by decide)
    · intro h; exfalso; omega
  · constructor
    · intro h; exact absurd h.2 (by decide)
    · intro h; exfalso; omega

/-- The zooms above 7 mapped to `High` are exactly 8, ..., 12. -/
theorem overZoomSet_High : overZoomSet WeatherLayer.High = Set.Icc 8 12 := by
  ext z
  simp only [overZoomSet, Set.mem_setOf_eq, Set.mem_Icc, getWeatherLayerByZoom_eq, getTileZoom,
    ZoomLevel7, ZoomLevel]
  split_ifs with h₁ h₂
  · constructor
    · intro h; exact absurd h.2 (by decide)
    · intro h; exfalso; omega
  · constructor
    · rintro ⟨h, -⟩; omega
    · intro h; exact ⟨by omega, rfl⟩
  · constructor
    · intro h; exact absurd h.2 (by decide)
    · intro h; exfalso; omega

/-- Number of integers in a closed interval, as the cardinality of the set. -/
theorem ncard_Icc_int (a b : Int) : (Set.Icc a b).ncard = (b + 1 - a).toNat := by
  rw [← Finset.coe_Icc, Set.ncard_coe_Finset, Int.card_Icc]

/-- C5 (as stated, refuted): the over-zoom tolerance of the coarse layer is not larger
than that of the fine layer. -/
theorem getMaxMissingDataZoomShift_Low_not_gt_High :
    ¬ (getMaxMissingDataZoomShift WeatherLayer.Low >
        getMaxMissingDataZoomShift WeatherLayer.High) := by
  decide

/-- C5 (amended): the over-zoom tolerance of the coarse layer (2) is smaller than that
of the fine layer (5); the zooms above 4 mapped to `Low` are exactly 5..6 (two zooms) and
the zooms above 7 mapped to `High` are exactly 8..12 (five zooms), so the former set is
the smaller one.  It is the under-zoom tolerance that is larger for the coarse layer
(2 against 0). -/
theorem overZoom_Low_smaller_than_High :
    getMaxMissingDataZoomShift WeatherLayer.Low <
      getMaxMissingDataZoomShift WeatherLayer.High ∧
    overZoomSet WeatherLayer.Low = Set.Icc 5 6 ∧
    overZoomSet WeatherLayer.High = Set.Icc 8 12 ∧
    (overZoomSet WeatherLayer.Low).ncard = 2 ∧
    (overZoomSet WeatherLayer.High).ncard = 5 ∧
    (overZoomSet WeatherLayer.Low).ncard < (overZoomSet WeatherLayer.High).ncard ∧
    getMaxMissingDataUnderZoomShift WeatherLayer.Low >
      getMaxMissingDataUnderZoomShift WeatherLayer.High := by
  have hl : (overZoomSet WeatherLayer.Low).ncard = 2 := by
    rw [overZoomSet_Low, ncard_Icc_int]; rfl
  have hh : (overZoomSet WeatherLayer.High).ncard = 5 := by
    rw [overZoomSet_High, ncard_Icc_int]; rfl
  refine ⟨by decide, overZoomSet_Low, overZoomSet_High, hl, hh, ?_, by decide⟩
  rw [hl, hh]
  decide

/-- C9: no integer zoom lies in both zoom windows, and the variant of the mapper that
tests the fine layer first returns the same layer as `getWeatherLayerByZoom` for every
zoom. -/
theorem zoomWindows_disjoint_and_order_irrelevant :
    (∀ z : Int, ¬ (inZoomWindow WeatherLayer.Low z ∧ inZoomWindow WeatherLayer.High z)) ∧
    (∀ z : Int, getWeatherLayerByZoomFineFirst z = getWeatherLayerByZoom z) := by
  constructor
  · intro z
    simp only [inZoomWindow, getTileZoom, getMaxMissingDataZoomShift,
      getMaxMissingDataUnderZoomShift, ZoomLevel4, ZoomLevel7, ZoomLevel]
    rintro ⟨⟨-, hl⟩, ⟨hh, -⟩⟩
    simp at hl hh
    omega
  · intro z
    rw [getWeatherLayerByZoomFineFirst_eq, getWeatherLayerByZoom_eq]
    split_ifs with h₁ h₂
    · exfalso; omega
    · rfl
    · rfl
    · rfl

/-- C6: for every `ValueRequest`, `TileRequest` and `DownloadGeoTileRequest` `r`, and
whatever the new object's storage held, the object produced by `clone` and by the copy
constructor has every member equal to the corresponding member of `r`, its
`queryController` holds the same address as that of `r` (the same token, not a new one),
and `r` is unchanged. -/
theorem clone_copies_fields_and_shares_queryController :
    (∀ storage r : ValueRequest,
      ((ValueRequest.clone storage r).1.point31 = r.point31 ∧
        (ValueRequest.clone storage r).1.zoom = r.zoom ∧
        (ValueRequest.clone storage r).1.band = r.band ∧
        (ValueRequest.clone storage r).1.queryController = r.queryController ∧
        (ValueRequest.clone storage r).2 = r) ∧
      ValueRequest.copyConstruct storage r = (r, r)) ∧
    (∀ storage r : TileRequest,
      ((TileRequest.clone storage r).1.weatherType = r.weatherType ∧
        (TileRequest.clone storage r).1.tileId = r.tileId ∧
        (TileRequest.clone storage r).1.zoom = r.zoom ∧
        (TileRequest.clone storage r).1.bands = r.bands ∧
        (TileRequest.clone storage r).1.version = r.version ∧
        (TileRequest.clone storage r).1.ignoreVersion = r.ignoreVersion ∧
        (TileRequest.clone storage r).1.queryController = r.queryController ∧
        (TileRequest.clone storage r).2 = r) ∧
      TileRequest.copyConstruct storage r = (r, r)) ∧
    (∀ (D : Type) (storage r : DownloadGeoTileRequest D),
      ((DownloadGeoTileRequest.clone storage r).1.topLeft = r.topLeft ∧
        (DownloadGeoTileRequest.clone storage r).1.bottomRight = r.bottomRight ∧
        (DownloadGeoTileRequest.clone storage r).1.forceDownload = r.forceDownload ∧
        (DownloadGeoTileRequest.clone storage r).1.queryController = r.queryController ∧
        (DownloadGeoTileRequest.clone storage r).2 = r) ∧
      DownloadGeoTileRequest.copyConstruct storage r = (r, r)) := by
  refine ⟨?_, ?_, ?_⟩
  · intro storage r
    exact ⟨⟨rfl, rfl, rfl, rfl, rfl⟩, rfl⟩
  · intro storage r
    exact ⟨⟨rfl, rfl, rfl, rfl, rfl, rfl, rfl, rfl⟩, rfl⟩
  · intro D storage r
    exact ⟨⟨rfl, rfl, rfl, rfl, rfl⟩, rfl⟩

/-- A call of `closeProvider` on a provider whose implementation is already closed
returns `false` and leaves the provider as it was. -/
theorem closeProvider_of_closed (s : WeatherTileResourceProvider) (h : s._p.closed = true) :
    closeProvider s = (s, false) := by
  simp [closeProvider, WeatherTileResourceProvider_P.closeProvider, h]

/-- C7: on a freshly constructed provider the first `closeProvider()` returns `true`;
after it, every later call (after any number `n` of further calls) returns `false` and
leaves the provider in the state the first call produced. -/
theorem closeProvider_idempotent :
    (closeProvider construct).2 = true ∧
    ∀ n : Nat,
      (fun s => (closeProvider s).1)^[n] (closeProvider construct).1 =
          (closeProvider construct).1 ∧
      closeProvider ((fun s => (closeProvider s).1)^[n] (closeProvider construct).1) =
          ((closeProvider construct).1, false) := by
  refine ⟨rfl, ?_⟩
  have hclosed : (closeProvider construct).1._p.closed = true := rfl
  have hfix : ∀ n : Nat, (fun s => (closeProvider s).1)^[n] (closeProvider construct).1 =
      (closeProvider construct).1 := by
    intro n
    induction n with
    | zero => rfl
    | succ k ih =>
      rw [Function.iterate_succ_apply', ih, closeProvider_of_closed _ hclosed]
  intro n
  refine ⟨hfix n, ?_⟩
  rw [hfix n]
  exact closeProvider_of_closed _ hclosed

end WeatherTileResourceProvider

end OsmAnd

namespace OsmAnd

namespace VectorMapSymbol

/-- Within the bounds of the array, `store` succeeds and replaces one element. -/
theorem store_of_lt {T : Type} (array : List T) (index : Nat) (value : T)
    (h : index < array.length) : store array index value = some (array.set index value) := by
  simp [store, h]

/-- The array made by `new T[count]` has `count` elements. -/
theorem length_newArray {T : Type} (storage : Nat → T) (count : Nat) :
    (newArray storage count).length = count := by
  simp [newArray]

/-- The loop of `generateCirclePrimitive`, when the `k` vertices from `p` on are within
the array: it ends with `pVertex = p + k`, keeps the length, leaves the elements outside
`[p, p + k)` as they were and puts the vertex of pass `idx + i` at index `p + i`. -/
theorem circleLoop_spec {F D : Type} (ops : FloatOps F D) (color : FColorARGB F) (radius : F)
    (step : D) :
    ∀ (k idx p : Nat) (vs : List (Vertex F)), p + k ≤ vs.length →
      ∃ vs', circleLoop ops color radius step k idx p vs = some (vs', p + k) ∧
        vs'.length = vs.length ∧
        (∀ j, j < p → vs'[j]? = vs[j]?) ∧
        (∀ j, p + k ≤ j → vs'[j]? = vs[j]?) ∧
        (∀ i, i < k → vs'[p + i]? = some (circleVertex ops color radius step (idx + i))) := by
  intro k
  induction k with
  | zero =>
    intro idx p vs _
    exact ⟨vs, rfl, rfl, fun _ _ => rfl, fun _ _ => rfl, fun i hi => absurd hi (Nat.not_lt_zero i)⟩
  | succ k ih =>
    intro idx p vs hle
    have hp : p < vs.length := by omega
    obtain ⟨vs', hrun, hlen, hbefore, hafter, hin⟩ :=
      ih (idx + 1) (p + 1) (vs.set p (circleVertex ops color radius step idx))
        (by rw [List.length_set]; omega)
    refine ⟨vs', ?_, ?_, ?_, ?_, ?_⟩
    · rw [circleLoop, store_of_lt _ _ _ hp]
      simp only [hrun]
      congr 2
      omega
    · rw [hlen, List.length_set]
    · intro j hj
      rw [hbefore j (by omega), List.getElem?_set_ne (by omega)]
    · intro j hj
      rw [hafter j (by omega), List.getElem?_set_ne (by omega)]
    · intro i hi
      cases i with
      | zero =>
        rw [Nat.add_zero, Nat.add_zero, hbefore p (by omega), List.getElem?_set_eq_of_lt _ hp]
      | succ i =>
        have h := hin i (by omega)
        rw [show p + (i + 1) = p + 1 + i by omega, show idx + (i + 1) = idx + 1 + i by omega]
        exact h

/-- C8: for `pointsCount ≥ 1` with `pointsCount + 2 < 2 ^ 32`, `generateCirclePrimitive`
returns normally, having divided once by `pointsCount`, and the symbol satisfies
`IsCircleFan`: primitive type `TriangleFan`, a buffer with no indices and exactly
`pointsCount + 2` vertices, vertex 0 at x = 0, z = 0, every vertex with the given colour
and the absent-elevation y, and the last vertex with the x and z of vertex 1.  For
`pointsCount = 0` it releases the vertex buffer, leaves `primitiveType` unchanged and
performs no division. -/
theorem generateCirclePrimitive_spec {F D : Type} (ops : FloatOps F D)
    (storage : Nat → Vertex F) (mapSymbol : VectorMapSymbol F) (color : FColorARGB F)
    (radius : F) :
    (∀ pointsCount : Nat, 1 ≤ pointsCount → pointsCount + 2 < 2 ^ 32 →
      ∃ result,
        generateCirclePrimitive ops storage mapSymbol color pointsCount radius =
          some (result, [pointsCount]) ∧
        IsCircleFan ops color pointsCount result) ∧
    (∃ result,
      generateCirclePrimitive ops storage mapSymbol color 0 radius = some (result, []) ∧
      result._verticesAndIndices = none ∧
      result.primitiveType = mapSymbol.primitiveType) := by
  refine ⟨?_, ⟨mapSymbol.releaseVerticesAndIndices, rfl, rfl, rfl⟩⟩
  intro pointsCount h₁ h₂
  have hne : pointsCount ≠ 0 := by omega
  have hmod : (pointsCount + 2) % 2 ^ 32 = pointsCount + 2 := Nat.mod_eq_of_lt h₂
  -- the array after the store of the centre
  let center : Vertex F :=
    { positionXYZD := ![ops.zero, ops.absentElevation, ops.zero, ops.nan], color := color }
  let vs₀ := newArray storage (pointsCount + 2)
  have hlen₀ : vs₀.length = pointsCount + 2 := length_newArray _ _
  let vs₁ := vs₀.set 0 center
  have hlen₁ : vs₁.length = pointsCount + 2 := by rw [List.length_set]; exact hlen₀
  have hstore₁ : store vs₀ 0 center = some vs₁ := store_of_lt _ _ _ (by omega)
  -- the array after the loop
  let step := ops.div ops.twoPi (ops.ofUInt pointsCount)
  obtain ⟨vs₂, hrun, hlen₂', hbefore, hafter, hin⟩ :=
    circleLoop_spec ops color radius step pointsCount 0 1 vs₁ (by omega)
  have hlen₂ : vs₂.length = pointsCount + 2 := by rw [hlen₂', hlen₁]
  have hfirst : vs₂[1]? = some (circleVertex ops color radius step 0) := by
    have h := hin 0 (by omega)
    simpa using h
  -- the array after the store of the last vertex
  let first := circleVertex ops color radius step 0
  let last : Vertex F :=
    { positionXYZD := ![first.positionXYZD 0, ops.absentElevation, first.positionXYZD 2,
        ops.nan]
      color := color }
  let vs₃ := vs₂.set (1 + pointsCount) last
  have hstore₃ : store vs₂ (1 + pointsCount) last = some vs₃ := store_of_lt _ _ _ (by omega)
  have hlen₃ : vs₃.length = pointsCount + 2 := by rw [List.length_set]; exact hlen₂
  have h0 : vs₃[0]? = some center := by
    rw [List.getElem?_set_ne (by omega), hbefore 0 (by omega),
      List.getElem?_set_eq_of_lt _ (by omega)]
  have hmid : ∀ i, i < pointsCount →
      vs₃[1 + i]? = some (circleVertex ops color radius step i) := by
    intro i hi
    rw [List.getElem?_set_ne (by omega), hin i hi, Nat.zero_add]
  have hlast : vs₃[pointsCount + 1]? = some last := by
    rw [show pointsCount + 1 = 1 + pointsCount by omega]
    exact List.getElem?_set_eq_of_lt _ (by omega)
  let buffer : VerticesAndIndices F :=
    { (VerticesAndIndices.construct : VerticesAndIndices F) with
      verticesCount := pointsCount + 2, vertices := some vs₃ }
  refine ⟨⟨some buffer, PrimitiveType.TriangleFan⟩, ?_, ?_⟩
  · simp only [generateCirclePrimitive, if_neg hne, hmod]
    rw [show store (newArray storage (pointsCount + 2)) 0 center = some vs₁ from hstore₁]
    simp only [Nat.zero_add]
    rw [show circleLoop ops color radius step pointsCount 0 1 vs₁ = some (vs₂, 1 + pointsCount)
      from hrun]
    simp only [hfirst]
    rw [show store vs₂ (1 + pointsCount) last = some vs₃ from hstore₃]
    rfl
  · refine ⟨rfl, buffer, vs₃, rfl, rfl, rfl, rfl, rfl, hlen₃, ⟨center, h0, rfl, rfl⟩, ?_, ?_⟩
    · intro i hi
      rcases Nat.eq_zero_or_pos i with hi0 | hipos
      · subst hi0
        exact ⟨center, h0, rfl, rfl⟩
      · rcases Nat.lt_or_ge i (pointsCount + 1) with hlt | hge
        · have h := hmid (i - 1) (by omega)
          rw [show 1 + (i - 1) = i by omega] at h
          exact ⟨_, h, rfl, rfl⟩
        · have hi' : i = pointsCount + 1 := by omega
          subst hi'
          exact ⟨last, hlast, rfl, rfl⟩
    · refine ⟨first, last, ?_, hlast, rfl, rfl⟩
      have h := hmid 0 (by omega)
      simpa using h

/-- Witness for C8: three points on the sample interpretation, from a symbol holding no
buffer. -/
theorem generateCirclePrimitive_spec_witness :
    (1 ≤ 3 ∧ 3 + 2 < 2 ^ 32) ∧
    (∃ result,
      generateCirclePrimitive sampleOps (fun _ => ⟨![7, 7, 7, 7], ⟨9, 9, 9, 9⟩⟩)
          ⟨none, PrimitiveType.Invalid⟩ ⟨1, 1, 1, 1⟩ 3 5 = some (result, [3]) ∧
      IsCircleFan sampleOps ⟨1, 1, 1, 1⟩ 3 result) ∧
    (∃ result,
      generateCirclePrimitive sampleOps (fun _ => ⟨![7, 7, 7, 7], ⟨9, 9, 9, 9⟩⟩)
          ⟨none, PrimitiveType.Invalid⟩ ⟨1, 1, 1, 1⟩ 0 5 = some (result, []) ∧
      result._verticesAndIndices = none ∧
      result.primitiveType = PrimitiveType.Invalid) :=
  ⟨⟨by decide, by decide⟩,
    (generateCirclePrimitive_spec sampleOps (fun _ => ⟨![7, 7, 7, 7], ⟨9, 9, 9, 9⟩⟩)
      ⟨none, PrimitiveType.Invalid⟩ ⟨1, 1, 1, 1⟩ 5).1 3 (by decide) (by decide),
    (generateCirclePrimitive_spec sampleOps (fun _ => ⟨![7, 7, 7, 7], ⟨9, 9, 9, 9⟩⟩)
      ⟨none, PrimitiveType.Invalid⟩ ⟨1, 1, 1, 1⟩ 5).2⟩

/-- The colour chosen for a model vertex whose `materialIndex` is `-1` or a valid index:
the choice succeeds; it is the vertex's own colour when `materialIndex = -1`, and
otherwise the custom colour recorded under the material's name when there is one and the
material's colour when there is none. -/
theorem vertexColor_spec {F : Type} (model3D : Model3D F)
    (customMaterialColors : MaterialColors F) (modelVertex : Model3D.Vertex F)
    (h : modelVertex.materialIndex = -1 ∨
      (0 ≤ modelVertex.materialIndex ∧ modelVertex.materialIndex < model3D.materials.length)) :
    ∃ c, vertexColor model3D customMaterialColors modelVertex = some c ∧
      (modelVertex.materialIndex = -1 → c = modelVertex.color) ∧
      (modelVertex.materialIndex ≠ -1 →
        ∃ material, model3D.materials[modelVertex.materialIndex.toNat]? = some material ∧
          (∀ c', customMaterialColors.lookup material.name = some c' → c = c') ∧
          (customMaterialColors.lookup material.name = none → c = material.color)) := by
  by_cases hm : modelVertex.materialIndex = -1
  · exact ⟨modelVertex.color, by simp [vertexColor, hm], fun _ => rfl, fun hne => absurd hm hne⟩
  · rcases h with h | ⟨h0, hlt⟩
    · exact absurd h hm
    · have hidx : modelVertex.materialIndex.toNat < model3D.materials.length := by omega
      have hget : model3D.materials[modelVertex.materialIndex.toNat]? =
          some (model3D.materials[modelVertex.materialIndex.toNat]) :=
        List.getElem?_eq_getElem hidx
      cases hc : customMaterialColors.lookup
          (model3D.materials[modelVertex.materialIndex.toNat]).name with
      | none =>
        refine ⟨(model3D.materials[modelVertex.materialIndex.toNat]).color, ?_,
          fun h => absurd h hm, fun _ => ⟨_, hget, ?_, fun _ => rfl⟩⟩
        · simp [vertexColor, hm, h0, hget, hc]
        · intro c' hc'
          rw [hc] at hc'
          exact absurd hc' (by simp)
      | some custom =>
        refine ⟨custom, ?_, fun h => absurd h hm, fun _ => ⟨_, hget, ?_, ?_⟩⟩
        · simp [vertexColor, hm, h0, hget, hc]
        · intro c' hc'
          rw [hc] at hc'
          exact Option.some.inj hc'
        · intro hnone
          rw [hc] at hnone
          exact absurd hnone (by simp)

/-- The loop of `generateModel3DPrimitive` on a model with valid material indices, when
the `k` vertices from `idx` on exist in the model and in the output array: it returns
normally, keeps the length of the output array, leaves the elements below `idx` as they
were and puts at each index `idx + i` the vertex with the position and normal of model
vertex `idx + i` and the colour chosen for it. -/
theorem modelLoop_spec {F : Type} (model3D : Model3D F) (customMaterialColors : MaterialColors F)
    (hvalid : HasValidMaterialIndices model3D) :
    ∀ (k idx : Nat) (out : List (VertexWithNormals F)),
      idx + k ≤ model3D.vertices.length → idx + k ≤ out.length →
      ∃ out', modelLoop model3D customMaterialColors k idx idx out = some out' ∧
        out'.length = out.length ∧
        (∀ j, j < idx → out'[j]? = out[j]?) ∧
        (∀ i, i < k → ∃ mv c, model3D.vertices[idx + i]? = some mv ∧
          vertexColor model3D customMaterialColors mv = some c ∧
          out'[idx + i]? = some
            { positionXYZ := ![mv.position 0, mv.position 1, mv.position 2]
              normalXYZ := ![mv.normal 0, mv.normal 1, mv.normal 2]
              color := c }) := by
  intro k
  induction k with
  | zero =>
    intro idx out _ _
    exact ⟨out, rfl, rfl, fun _ _ => rfl, fun i hi => absurd hi (Nat.not_lt_zero i)⟩
  | succ k ih =>
    intro idx out hmodel hout
    have hidx : idx < model3D.vertices.length := by omega
    have hp : idx < out.length := by omega
    have hget : model3D.vertices[idx]? = some (model3D.vertices[idx]) :=
      List.getElem?_eq_getElem hidx
    obtain ⟨c, hc, -, -⟩ := vertexColor_spec model3D customMaterialColors (model3D.vertices[idx])
      (hvalid _ (List.getElem_mem hidx))
    obtain ⟨out', hrun, hlen, hbefore, hin⟩ :=
      ih (idx + 1)
        (out.set idx
          { positionXYZ := ![(model3D.vertices[idx]).position 0,
              (model3D.vertices[idx]).position 1, (model3D.vertices[idx]).position 2]
            normalXYZ := ![(model3D.vertices[idx]).normal 0,
              (model3D.vertices[idx]).normal 1, (model3D.vertices[idx]).normal 2]
            color := c })
        (by omega) (by rw [List.length_set]; omega)
    refine ⟨out', ?_, ?_, ?_, ?_⟩
    · rw [modelLoop]
      simp only [hget, hc]
      rw [store_of_lt _ _ _ hp]
      exact hrun
    · rw [hlen, List.length_set]
    · intro j hj
      rw [hbefore j (by omega), List.getElem?_set_ne (by omega)]
    · intro i hi
      cases i with
      | zero =>
        refine ⟨model3D.vertices[idx], c, hget, hc, ?_⟩
        rw [Nat.add_zero, hbefore idx (by omega), List.getElem?_set_eq_of_lt _ hp]
      | succ i =>
        obtain ⟨mv, c', h₁, h₂, h₃⟩ := hin i (by omega)
        rw [show idx + 1 + i = idx + (i + 1) by omega] at h₁ h₃
        exact ⟨mv, c', h₁, h₂, h₃⟩

/-- C10: for every model whose vertices each have `materialIndex = -1` or a valid index
into the model's materials, `generateModel3DPrimitive` returns normally and the symbol
satisfies `IsModelTriangles`: primitive type `Triangles`, a dense buffer with no indices
and exactly one output vertex per model vertex, in the same order, with position and
normal copied and with the colour chosen as the vertex's own colour when
`materialIndex = -1`, else the custom colour recorded under the material's name when
there is one, else the material's colour. -/
theorem generateModel3DPrimitive_spec {F : Type} (storage : Nat → VertexWithNormals F)
    (mapSymbol : VectorMapSymbol F) (model3D : Model3D F)
    (customMaterialColors : MaterialColors F) (hvalid : HasValidMaterialIndices model3D) :
    ∃ result,
      generateModel3DPrimitive storage mapSymbol model3D customMaterialColors = some result ∧
      IsModelTriangles model3D customMaterialColors result := by
  obtain ⟨vs, hrun, hlen, -, hin⟩ :=
    modelLoop_spec model3D customMaterialColors hvalid model3D.vertices.length 0
      (newArray storage model3D.vertices.length) (by omega)
      (by rw [length_newArray]; omega)
  rw [length_newArray] at hlen
  let buffer : VerticesAndIndices F :=
    { (VerticesAndIndices.construct : VerticesAndIndices F) with
      verticesCount := model3D.vertices.length
      verticesWithNormals := some vs
      isDenseObject := true }
  refine ⟨⟨some buffer, PrimitiveType.Triangles⟩, ?_, ?_⟩
  · simp only [generateModel3DPrimitive, hrun]
    rfl
  · refine ⟨rfl, buffer, vs, rfl, rfl, rfl, rfl, rfl, rfl, hlen, ?_⟩
    intro i modelVertex hi
    have hilt : i < model3D.vertices.length := by
      rcases Nat.lt_or_ge i model3D.vertices.length with h | h
      · exact h
      · rw [List.getElem?_eq_none h] at hi
        exact absurd hi (by simp)
    obtain ⟨mv, c, h₁, h₂, h₃⟩ := hin i hilt
    rw [Nat.zero_add] at h₁ h₃
    rw [hi] at h₁
    have hmv : modelVertex = mv := Option.some.inj h₁
    subst hmv
    obtain ⟨c', hc', hown, hmat⟩ := vertexColor_spec model3D customMaterialColors modelVertex
      (hvalid _ (List.getElem?_mem hi))
    rw [h₂] at hc'
    have hcc : c = c' := Option.some.inj hc'
    subst hcc
    refine ⟨_, h₃, ?_, ?_, hown, hmat⟩
    · intro k
      fin_cases k <;> rfl
    · intro k
      fin_cases k <;> rfl

/-- Witness for C10: the sample model with the sample custom colours. -/
theorem generateModel3DPrimitive_spec_witness :
    HasValidMaterialIndices sampleModel ∧
    ∃ result,
      generateModel3DPrimitive (fun _ => ⟨![7, 7, 7], ![7, 7, 7], ⟨9, 9, 9, 9⟩⟩)
          ⟨none, PrimitiveType.Invalid⟩ sampleModel sampleColors = some result ∧
      IsModelTriangles sampleModel sampleColors result :=
  ⟨by simp [HasValidMaterialIndices, sampleModel],
    generateModel3DPrimitive_spec (fun _ => ⟨![7, 7, 7], ![7, 7, 7], ⟨9, 9, 9, 9⟩⟩)
      ⟨none, PrimitiveType.Invalid⟩ sampleModel sampleColors
      (by simp [HasValidMaterialIndices, sampleModel])⟩

end VectorMapSymbol

end OsmAnd
